import Mathlib

/-!
Shallow embedding of the obscura-backend watchlist service (TypeScript /
Express / Mongoose) and proofs about its watch-status and episode
aggregation logic, its duplicate-add and ownership checks, its OTP
verification flow, and its email-failure behaviour.

Modelling conventions:
* Mongo object ids and timestamps are `Nat`.
* JS strings stay `String`; status fields are strings validated by
  membership in literal lists, exactly as the controllers do.
* A request-body field that may be absent is `Option _`; JS truthiness of
  an optional string (`undefined` and `""` are falsy) is `strTruthy`.
* `ep.runtime || 45` (JS `||` treats 0 as falsy) is `runtimeOrDefault`.
* Each controller is a function from the database state (lists of rows)
  and the request data to the HTTP status code paired with the new state.
* `findOne`/`findById` become `List.find?`; a Mongoose `doc.save()` after
  a `findOne` becomes `updateFirst` (replace the first matching row);
  `findOneAndDelete` becomes `List.eraseP`.
* Nondeterministic inputs of the real code (current time, generated OTP,
  bcrypt hash, fresh object id, whether the SMTP send throws, whether the
  reconciler's try-block throws) are explicit parameters.
-/

namespace Obscura

/-- One row of the `media` collection (models/Media.ts), restricted to the
fields the verified controllers read or write. -/
structure MediaRow where
  id : Nat
  tmdbId : Nat
  type : String
  addedBy : Nat
  watchStatus : String
  watchTimeMinutes : Nat
  rating : Option Int
  deriving DecidableEq, Repr

/-- One row of the `episodes` collection (models/Episode.ts), restricted to
the fields the verified controllers read or write. -/
structure EpisodeRow where
  id : Nat
  tmdbId : Nat
  seasonNumber : Nat
  episodeNumber : Nat
  runtime : Option Nat
  addedBy : Nat
  watchStatus : String
  watchedAt : Option Nat
  rating : Option Int
  deriving DecidableEq, Repr

/-- One row of the `users` collection (models/User.ts), restricted to the
fields the verified controllers read or write. -/
structure UserRow where
  id : Nat
  email : String
  password : String
  otp : Option String
  otpExpires : Option Nat
  isEmailVerified : Bool
  resetPasswordToken : Option String
  resetPasswordExpires : Option Nat
  deriving DecidableEq, Repr

/-- The media/episode part of the document store. -/
structure DB where
  media : List MediaRow
  episodes : List EpisodeRow
  deriving DecidableEq, Repr

/-- The users part of the document store. -/
structure AuthDB where
  users : List UserRow
  deriving DecidableEq, Repr

/-- JS truthiness of an optional string request field: `undefined` and the
empty string are falsy. -/
def strTruthy : Option String → Bool
  | none => false
  | some s => !(s == "")

/-- `ep.runtime || 45`: JS `||` falls back to 45 when runtime is
`undefined` or `0`. -/
def runtimeOrDefault : Option Nat → Nat
  | none => 45
  | some v => if v == 0 then 45 else v

/-- Replace the first element satisfying `p` by its image under `f`; this
is the effect of a Mongoose `findOne` followed by `doc.save()`. -/
def updateFirst (p : α → Bool) (f : α → α) : List α → List α
  | [] => []
  | x :: xs => if p x then f x :: xs else x :: updateFirst p f xs

/-- The `{ _id: mediaId, addedBy: userId }` filter used by
updateWatchStatus and removeFromWatchlist. -/
def mediaFilter (userId mediaId : Nat) (m : MediaRow) : Bool :=
  m.id == mediaId && m.addedBy == userId

/-- The `{ addedBy: userId, tmdbId, type: "tv" }` filter used by the
reconciler to locate the parent show row. -/
def showFilter (userId tmdbId : Nat) (m : MediaRow) : Bool :=
  m.addedBy == userId && m.tmdbId == tmdbId && m.type == "tv"

/-- The `{ tmdbId, addedBy: userId, type }` duplicate-check filter of
addToWatchlist. -/
def dupFilter (userId tmdbId : Nat) (ty : String) (m : MediaRow) : Bool :=
  m.tmdbId == tmdbId && m.addedBy == userId && m.type == ty

/-- The `{ addedBy: userId, tmdbId }` filter used by the reconciler to
load all episodes of a show. -/
def epShowFilter (userId tmdbId : Nat) (e : EpisodeRow) : Bool :=
  e.addedBy == userId && e.tmdbId == tmdbId

/-- The `findById(episodeId)` lookup. -/
def epById (episodeId : Nat) (e : EpisodeRow) : Bool :=
  e.id == episodeId

/-- The `findOne({ email })` lookup. -/
def userByEmail (email : String) (u : UserRow) : Bool :=
  u.email == email

/-- Valid Media watch statuses, `["planned", "watching", "completed"]` in
updateWatchStatus. -/
def validMediaStatuses : List String := ["planned", "watching", "completed"]

/-- Valid Episode watch statuses, `["unwatched", "watched", "skipped"]` in
updateEpisodeStatus. -/
def validEpisodeStatuses : List String := ["unwatched", "watched", "skipped"]

/-- The reconciler `updateTVShowStats` (media controller): load all
episodes of the (user, show), filter the watched ones, sum
`runtime || 45` over them, and write the derived watch time and aggregate
status onto the parent tv Media row when one exists. -/
def updateTVShowStats (userId tmdbId : Nat) (db : DB) : DB :=
  let episodes := db.episodes.filter (epShowFilter userId tmdbId)
  let watchedEpisodes := episodes.filter (fun e => e.watchStatus == "watched")
  let totalWatchTime := watchedEpisodes.foldl (fun sum ep => sum + runtimeOrDefault ep.runtime) 0
  let totalEpisodes := episodes.length
  let newStatus :=
    if watchedEpisodes.length == 0 then "planned"
    else if watchedEpisodes.length == totalEpisodes then "completed"
    else "watching"
  { db with
    media := updateFirst (showFilter userId tmdbId)
      (fun m => { m with watchTimeMinutes := totalWatchTime, watchStatus := newStatus })
      db.media }

/-- `updateTVShowStats` with its surrounding `try/catch`: `throws = true`
models an error raised inside the try block before the single `save`, in
which case the catch swallows it and the store is untouched. -/
def updateTVShowStatsTry (throws : Bool) (userId tmdbId : Nat) (db : DB) : DB :=
  if throws then db else updateTVShowStats userId tmdbId db

/-- The episode controller `updateEpisodeStatus`: validate the status
value, look the episode up by id, check ownership (404 otherwise),
apply the status change (stamping or clearing `watchedAt`), validate the
rating (400 without saving otherwise), save, then reconcile the parent
show inside a try/catch. Returns the HTTP status and the new store. -/
def updateEpisodeStatus (userId episodeId now : Nat) (watchStatus : Option String)
    (rating : Option Int) (reconThrows : Bool) (db : DB) : Nat × DB :=
  if strTruthy watchStatus && !(validEpisodeStatuses.contains (watchStatus.getD "")) then
    (400, db)
  else
    match db.episodes.find? (epById episodeId) with
    | none => (404, db)
    | some ep =>
      if !(ep.addedBy == userId) then (404, db)
      else
        let ep1 :=
          if strTruthy watchStatus then
            let ws := watchStatus.getD ""
            { ep with
              watchStatus := ws,
              watchedAt :=
                if ws == "watched" then some now
                else if ws == "unwatched" then none
                else ep.watchedAt }
          else ep
        if rating.isSome && (rating.getD 0 < 1 || 5 < rating.getD 0) then (400, db)
        else
          let ep2 :=
            match rating with
            | some r => { ep1 with rating := some r }
            | none => ep1
          let db1 := { db with episodes := updateFirst (epById episodeId) (fun _ => ep2) db.episodes }
          let db2 := updateTVShowStatsTry reconThrows userId ep.tmdbId db1
          (200, db2)

/-- The media controller `updateWatchStatus`: look the Media row up by
(id, owner) (404 when absent), overwrite the status only when the
supplied value is truthy and in the valid list (silently ignored
otherwise), validate the rating (400 without saving otherwise), save. -/
def updateWatchStatus (userId mediaId : Nat) (watchStatus : Option String)
    (rating : Option Int) (db : DB) : Nat × DB :=
  match db.media.find? (mediaFilter userId mediaId) with
  | none => (404, db)
  | some media =>
    let media1 :=
      if strTruthy watchStatus && validMediaStatuses.contains (watchStatus.getD "") then
        { media with watchStatus := watchStatus.getD "" }
      else media
    if rating.isSome && (rating.getD 0 < 1 || 5 < rating.getD 0) then (400, db)
    else
      let media2 :=
        match rating with
        | some r => { media1 with rating := some r }
        | none => media1
      (200, { db with media := updateFirst (mediaFilter userId mediaId) (fun _ => media2) db.media })

/-- The media controller `removeFromWatchlist`:
`findOneAndDelete({ _id, addedBy })`, 404 when nothing matches. -/
def removeFromWatchlist (userId mediaId : Nat) (db : DB) : Nat × DB :=
  match db.media.find? (mediaFilter userId mediaId) with
  | none => (404, db)
  | some _ => (200, { db with media := db.media.eraseP (mediaFilter userId mediaId) })

/-- The media controller `addToWatchlist`: body validation (JS-falsy
tmdbId, title or type is 400), duplicate check on (tmdbId, addedBy,
type), then insert of a fresh row with status "planned". The TMDB-derived
initial watch-time estimate and the fresh object id are parameters. -/
def addToWatchlist (userId tmdbId : Nat) (title ty : String)
    (newId watchTimeMinutes : Nat) (db : DB) : Nat × DB :=
  if tmdbId == 0 || title == "" || ty == "" then (400, db)
  else if db.media.any (dupFilter userId tmdbId ty) then (400, db)
  else
    (201, { db with media := db.media ++
      [{ id := newId, tmdbId := tmdbId, type := ty, addedBy := userId,
         watchStatus := "planned", watchTimeMinutes := watchTimeMinutes, rating := none }] })

/-- The media controller `addTVShowToWatchlist`: body validation requires
`type === "tv"`, duplicate check on (tmdbId, addedBy, type: "tv"), then
insert with status "planned" and watchTimeMinutes 0. -/
def addTVShowToWatchlist (userId tmdbId : Nat) (title ty : String)
    (newId : Nat) (db : DB) : Nat × DB :=
  if tmdbId == 0 || title == "" || !(ty == "tv") then (400, db)
  else if db.media.any (dupFilter userId tmdbId "tv") then (400, db)
  else
    (201, { db with media := db.media ++
      [{ id := newId, tmdbId := tmdbId, type := "tv", addedBy := userId,
         watchStatus := "planned", watchTimeMinutes := 0, rating := none }] })

/-- The auth controller `verifyOTP`: find the user by email (404), reject
a mismatched code (400), reject when the stored expiry exists and now is
strictly past it (400), otherwise mark verified and clear the stored OTP
and expiry. The submitted code is `Option String` because the body field
may be absent. -/
def verifyOTP (email : String) (otp : Option String) (now : Nat)
    (db : AuthDB) : Nat × AuthDB :=
  match db.users.find? (userByEmail email) with
  | none => (404, db)
  | some user =>
    if !(user.otp == otp) then (400, db)
    else if user.otpExpires.isSome && user.otpExpires.getD 0 < now then (400, db)
    else
      let user1 := { user with
        isEmailVerified := true
        otp := none
        otpExpires := (none : Option Nat) }
      (200, { db with users := updateFirst (userByEmail email) (fun _ => user1) db.users })

/-- The successful verifyOTP write: email verified, stored OTP and its
expiry cleared. -/
def clearOTP (u : UserRow) : UserRow :=
  { u with isEmailVerified := true, otp := none, otpExpires := none }

/-- The user row register saves: hashed password, the generated OTP with
an expiry of now + 10 minutes, unverified. -/
def freshUser (email hashedPassword otp : String) (newId now : Nat) : UserRow :=
  { id := newId, email := email, password := hashedPassword, otp := some otp,
    otpExpires := some (now + 10 * 60 * 1000), isEmailVerified := false,
    resetPasswordToken := none, resetPasswordExpires := none }

/-- The auth controller `register`: field validation, duplicate-email
check, then the new user (hashed password, fresh 6-digit OTP, expiry now
+ 10 minutes, unverified) is saved, and only afterwards is the OTP email
sent; `emailThrows = true` models `sendOTPEmail` throwing, which the
catch converts to a 500 without undoing the save. The bcrypt hash, the
generated OTP and the fresh id are parameters. -/
def register (firstname lastname email hashedPassword otp : String)
    (newId now : Nat) (emailThrows : Bool) (db : AuthDB) : Nat × AuthDB :=
  if firstname == "" || lastname == "" || email == "" || hashedPassword == "" then (400, db)
  else if (db.users.find? (userByEmail email)).isSome then (400, db)
  else
    let db1 : AuthDB := { db with users := db.users ++ [freshUser email hashedPassword otp newId now] }
    if emailThrows then (500, db1) else (201, db1)

/-- The reset-token write requestPasswordReset saves: the sha256-hashed
token and an expiry of now + 1 hour. -/
def withResetToken (u : UserRow) (hashedToken : String) (now : Nat) : UserRow :=
  { u with resetPasswordToken := some hashedToken, resetPasswordExpires := some (now + 3600000) }

/-- The password controller `requestPasswordReset`: find the user by
email (a missing user still answers 200), store the sha256-hashed reset
token and an expiry of now + 1 hour, save, and only then send the reset
email; `emailThrows = true` models `sendPasswordResetEmail` throwing,
which the catch converts to a 500 without undoing the save. The hashed
token is a parameter. -/
def requestPasswordReset (email hashedToken : String) (now : Nat)
    (emailThrows : Bool) (db : AuthDB) : Nat × AuthDB :=
  if email == "" then (400, db)
  else
    match db.users.find? (userByEmail email) with
    | none => (200, db)
    | some user =>
      let user1 := withResetToken user hashedToken now
      let db1 : AuthDB :=
        { db with users := updateFirst (userByEmail email) (fun _ => user1) db.users }
      if emailThrows then (500, db1) else (200, db1)

/-- First episode of the concrete example show: season 1 episode 1,
runtime 45, unwatched, owned by user 7. -/
def exEp1 : EpisodeRow :=
  { id := 1, tmdbId := 500, seasonNumber := 1, episodeNumber := 1,
    runtime := some 45, addedBy := 7, watchStatus := "unwatched",
    watchedAt := none, rating := none }

/-- Second episode of the concrete example show: season 1 episode 2,
runtime 50, unwatched, owned by user 7. -/
def exEp2 : EpisodeRow :=
  { id := 2, tmdbId := 500, seasonNumber := 1, episodeNumber := 2,
    runtime := some 50, addedBy := 7, watchStatus := "unwatched",
    watchedAt := none, rating := none }

/-- The concrete example parent tv Media row for show 500, owned by
user 7, initially planned with no accumulated watch time. -/
def exShow : MediaRow :=
  { id := 10, tmdbId := 500, type := "tv", addedBy := 7,
    watchStatus := "planned", watchTimeMinutes := 0, rating := none }

/-- The concrete example store: the show row and its two fetched
episodes. -/
def exDB : DB := { media := [exShow], episodes := [exEp1, exEp2] }

/-- A user row for the OTP scenarios: unverified, stored OTP "123456"
expiring at time 1000. -/
def exUser : UserRow :=
  { id := 3, email := "a@b.c", password := "h", otp := some "123456",
    otpExpires := some 1000, isEmailVerified := false,
    resetPasswordToken := none, resetPasswordExpires := none }

/-- A user store holding just the OTP-scenario user. -/
def exAuthDB : AuthDB := { users := [exUser] }

/-- All Episode rows of a given (user, show), the set the reconciler
loads. -/
def episodesOf (userId tmdbId : Nat) (db : DB) : List EpisodeRow :=
  db.episodes.filter (epShowFilter userId tmdbId)

/-- The Episode rows of a given (user, show) whose status is watched. -/
def watchedEpisodesOf (userId tmdbId : Nat) (db : DB) : List EpisodeRow :=
  (episodesOf userId tmdbId db).filter (fun e => e.watchStatus == "watched")

theorem find?_updateFirst {α} (p : α → Bool) (f : α → α) (l : List α)
    (hf : ∀ a, p a = true → p (f a) = true) (u : α) (h : l.find? p = some u) :
    (updateFirst p f l).find? p = some (f u) := by
  induction l with
  | nil => simp [List.find?] at h
  | cons x xs ih =>
    by_cases hx : p x = true
    · rw [List.find?_cons_of_pos _ hx] at h
      injection h with h
      subst h
      simp [updateFirst, hx, List.find?_cons_of_pos _ (hf x hx)]
    · rw [List.find?_cons_of_neg _ hx] at h
      simp [updateFirst, hx, List.find?_cons_of_neg _ hx, ih h]

theorem updateFirst_const_self {α} (p : α → Bool) (l : List α) (m : α)
    (h : l.find? p = some m) : updateFirst p (fun _ => m) l = l := by
  induction l with
  | nil => rfl
  | cons x xs ih =>
    by_cases hx : p x = true
    · rw [List.find?_cons_of_pos _ hx] at h
      injection h with h
      subst h
      simp [updateFirst, hx]
    · rw [List.find?_cons_of_neg _ hx] at h
      simp [updateFirst, hx, ih h]

theorem updateFirst_of_forall_neg {α} (p : α → Bool) (f : α → α) (l : List α)
    (h : ∀ x ∈ l, p x = false) : updateFirst p f l = l := by
  induction l with
  | nil => rfl
  | cons x xs ih =>
    have hx : p x = false := h x (List.mem_cons_self x xs)
    simp [updateFirst, hx, ih (fun y hy => h y (List.mem_cons_of_mem x hy))]

theorem updateFirst_idem {α} (p : α → Bool) (f : α → α) (l : List α)
    (hf : ∀ a, p a = true → p (f a) = true) (hff : ∀ a, f (f a) = f a) :
    updateFirst p f (updateFirst p f l) = updateFirst p f l := by
  induction l with
  | nil => rfl
  | cons x xs ih =>
    by_cases hx : p x = true
    · simp [updateFirst, hx, hf x hx, hff x]
    · simp [updateFirst, hx, ih]

theorem find?_append_of_none {α} (p : α → Bool) (l1 l2 : List α)
    (h : l1.find? p = none) : (l1 ++ l2).find? p = l2.find? p := by
  induction l1 with
  | nil => rfl
  | cons x xs ih =>
    by_cases hx : p x = true
    · rw [List.find?_cons_of_pos _ hx] at h
      exact absurd h (by simp)
    · rw [List.find?_cons_of_neg _ hx] at h
      simp [List.find?_cons_of_neg _ hx, ih h]

theorem foldl_add_runtime (l : List EpisodeRow) (s : Nat) :
    l.foldl (fun sum ep => sum + runtimeOrDefault ep.runtime) s
      = s + (l.map (fun e => runtimeOrDefault e.runtime)).sum := by
  induction l generalizing s with
  | nil => simp
  | cons x xs ih => simp [List.foldl_cons, ih, Nat.add_assoc]

theorem updateTVShowStatsTry_episodes (b : Bool) (userId tmdbId : Nat) (db : DB) :
    (updateTVShowStatsTry b userId tmdbId db).episodes = db.episodes := by
  cases b <;> rfl

theorem updateEpisodeStatus_episodes_irrel (userId epId now : Nat) (ws : Option String)
    (rating : Option Int) (db : DB) (b b' : Bool) :
    ((updateEpisodeStatus userId epId now ws rating b db).2).episodes
      = ((updateEpisodeStatus userId epId now ws rating b' db).2).episodes := by
  unfold updateEpisodeStatus
  by_cases h1 : (strTruthy ws && !(validEpisodeStatuses.contains (ws.getD ""))) = true
  · rw [if_pos h1, if_pos h1]
  · rw [if_neg h1, if_neg h1]
    cases hfind : db.episodes.find? (epById epId) with
    | none => rfl
    | some e =>
      by_cases h2 : (!(e.addedBy == userId)) = true
      · simp [h2]
      · by_cases h3 : (rating.isSome
            && (decide (rating.getD 0 < 1) || decide (5 < rating.getD 0))) = true
        · simp [h2, h3]
        · simp [h2, h3, updateTVShowStatsTry_episodes]

/-- C2: the reconciler is idempotent. Running updateTVShowStats a second
time on the unchanged episode set leaves the whole store, in particular
the parent Media row's watchStatus and watchTimeMinutes, exactly as after
the first run. -/
theorem c2_reconciler_idempotent (userId tmdbId : Nat) (db : DB) :
    updateTVShowStats userId tmdbId (updateTVShowStats userId tmdbId db)
      = updateTVShowStats userId tmdbId db := by
  show DB.mk _ _ = DB.mk _ _
  congr 1
  exact updateFirst_idem _ _ _ (fun a ha => by simpa [showFilter] using ha) (fun a => rfl)

/-- C7 counterexample: for the example store, a status-update request for
the owned Media row 10 carrying the invalid status value "deleted" is not
rejected: it answers 200 (not 400) and leaves the store unchanged. -/
theorem c7_invalid_status_not_rejected :
    (updateWatchStatus 7 10 (some "deleted") none exDB).1 ≠ 400
    ∧ updateWatchStatus 7 10 (some "deleted") none exDB = (200, exDB) := by
  constructor <;> decide

/-- C7 amended: a status value outside the set planned/watching/completed
is silently ignored rather than rejected: when no rating accompanies it,
updateWatchStatus on an owned row answers 200 and leaves the store, in
particular the row's watchStatus, unchanged. -/
theorem c7_invalid_status_ignored (db : DB) (userId mediaId : Nat)
    (ws : Option String) (m : MediaRow)
    (hm : db.media.find? (mediaFilter userId mediaId) = some m)
    (hws : validMediaStatuses.contains (ws.getD "") = false) :
    updateWatchStatus userId mediaId ws none db = (200, db) := by
  unfold updateWatchStatus
  rw [hm]
  have hws' : ws.getD "" ∉ validMediaStatuses := by simpa using hws
  simp [hws', updateFirst_const_self (mediaFilter userId mediaId) db.media m hm]

/-- Witness for c7_invalid_status_ignored: the hypotheses hold at the
example store and the invalid value "deleted", and the request answers
200 leaving the store unchanged. -/
theorem c7_invalid_status_ignored_witness :
    exDB.media.find? (mediaFilter 7 10) = some exShow
    ∧ validMediaStatuses.contains ((some "deleted").getD "") = false
    ∧ updateWatchStatus 7 10 (some "deleted") none exDB = (200, exDB) :=
  ⟨by decide, by decide,
    c7_invalid_status_ignored exDB 7 10 (some "deleted") exShow (by decide) (by decide)⟩

/-- C1: when a parent tv Media row exists for the (user, show), the
reconciler leaves it with watchTimeMinutes equal to the sum of the
runtimes (45 when a runtime is absent) of exactly the watched episodes,
and with watchStatus planned when zero episodes are watched (also when
the show has zero known episodes), completed when all of a non-zero set
are watched, and watching otherwise; moreover the concrete scenario
holds: with 2 fetched episodes, marking episode 1 (runtime 45) watched
through updateEpisodeStatus yields watching/45, then marking episode 2
(runtime 50) watched yields completed/95. -/
theorem c1_reconciler_correct (userId tmdbId : Nat) (db : DB) (m : MediaRow)
    (hm : db.media.find? (showFilter userId tmdbId) = some m) :
    (∃ m', (updateTVShowStats userId tmdbId db).media.find? (showFilter userId tmdbId) = some m'
      ∧ m'.watchTimeMinutes =
          ((watchedEpisodesOf userId tmdbId db).map (fun e => runtimeOrDefault e.runtime)).sum
      ∧ m'.watchStatus =
          (if (watchedEpisodesOf userId tmdbId db).length = 0 then "planned"
           else if (watchedEpisodesOf userId tmdbId db).length
              = (episodesOf userId tmdbId db).length then "completed"
           else "watching"))
    ∧ (updateEpisodeStatus 7 1 100 (some "watched") none false exDB).1 = 200
    ∧ ((updateEpisodeStatus 7 1 100 (some "watched") none false exDB).2).media
        = [{ exShow with watchStatus := "watching", watchTimeMinutes := 45 }]
    ∧ (updateEpisodeStatus 7 2 200 (some "watched") none false
        (updateEpisodeStatus 7 1 100 (some "watched") none false exDB).2).1 = 200
    ∧ ((updateEpisodeStatus 7 2 200 (some "watched") none false
        (updateEpisodeStatus 7 1 100 (some "watched") none false exDB).2).2).media
        = [{ exShow with watchStatus := "completed", watchTimeMinutes := 95 }] := by
  refine ⟨?_, by decide, by decide, by decide, by decide⟩
  rw [updateTVShowStats]
  refine ⟨_, find?_updateFirst _ _ _ (fun a ha => by simpa [showFilter] using ha) m hm, ?_, ?_⟩
  · simpa [watchedEpisodesOf, episodesOf] using
      foldl_add_runtime ((db.episodes.filter (epShowFilter userId tmdbId)).filter
        (fun e => e.watchStatus == "watched")) 0
  · by_cases h0 : (watchedEpisodesOf userId tmdbId db).length = 0
    · simp only [watchedEpisodesOf, episodesOf] at h0
      simp [watchedEpisodesOf, episodesOf, h0]
    · by_cases h1 : (watchedEpisodesOf userId tmdbId db).length
          = (episodesOf userId tmdbId db).length
      · simp only [watchedEpisodesOf, episodesOf] at h0 h1
        simp [watchedEpisodesOf, episodesOf, h0, h1]
      · simp only [watchedEpisodesOf, episodesOf] at h0 h1
        simp [watchedEpisodesOf, episodesOf, h0, h1]

/-- Witness for c1_reconciler_correct at the example store, whose show
row exists for user 7 and show 500. -/
theorem c1_reconciler_correct_witness :
    exDB.media.find? (showFilter 7 500) = some exShow
    ∧ ((∃ m', (updateTVShowStats 7 500 exDB).media.find? (showFilter 7 500) = some m'
        ∧ m'.watchTimeMinutes =
            ((watchedEpisodesOf 7 500 exDB).map (fun e => runtimeOrDefault e.runtime)).sum
        ∧ m'.watchStatus =
            (if (watchedEpisodesOf 7 500 exDB).length = 0 then "planned"
             else if (watchedEpisodesOf 7 500 exDB).length
                = (episodesOf 7 500 exDB).length then "completed"
             else "watching"))
      ∧ (updateEpisodeStatus 7 1 100 (some "watched") none false exDB).1 = 200
      ∧ ((updateEpisodeStatus 7 1 100 (some "watched") none false exDB).2).media
          = [{ exShow with watchStatus := "watching", watchTimeMinutes := 45 }]
      ∧ (updateEpisodeStatus 7 2 200 (some "watched") none false
          (updateEpisodeStatus 7 1 100 (some "watched") none false exDB).2).1 = 200
      ∧ ((updateEpisodeStatus 7 2 200 (some "watched") none false
          (updateEpisodeStatus 7 1 100 (some "watched") none false exDB).2).2).media
          = [{ exShow with watchStatus := "completed", watchTimeMinutes := 95 }]) :=
  ⟨by decide, c1_reconciler_correct 7 500 exDB exShow (by decide)⟩

/-- C3: after a successful add of a (user, catalogId, type) triple, a
second add of the same triple — through addToWatchlist, and likewise for
a tv triple through addTVShowToWatchlist — answers 400 and creates no new
Media row, whatever title, fresh id and watch-time estimate the second
request carries. -/
theorem c3_duplicate_add_rejected (db db2 : DB) (userId tmdbId tmdbIdB : Nat)
    (title title2 ty : String) (newId wt newId2 wt2 : Nat)
    (titleB titleB2 tyB2 : String) (newIdB newIdB2 : Nat)
    (h1 : (addToWatchlist userId tmdbId title ty newId wt db).1 = 201)
    (h2 : (addTVShowToWatchlist userId tmdbIdB titleB "tv" newIdB db2).1 = 201) :
    addToWatchlist userId tmdbId title2 ty newId2 wt2
        (addToWatchlist userId tmdbId title ty newId wt db).2
      = (400, (addToWatchlist userId tmdbId title ty newId wt db).2)
    ∧ addTVShowToWatchlist userId tmdbIdB titleB2 tyB2 newIdB2
        (addTVShowToWatchlist userId tmdbIdB titleB "tv" newIdB db2).2
      = (400, (addTVShowToWatchlist userId tmdbIdB titleB "tv" newIdB db2).2) := by
  constructor
  · unfold addToWatchlist at h1 ⊢
    by_cases hv : (tmdbId == 0 || title == "" || ty == "") = true
    · rw [if_pos hv] at h1
      simp at h1
    · rw [if_neg hv] at h1
      by_cases hd : db.media.any (dupFilter userId tmdbId ty) = true
      · rw [if_pos hd] at h1
        simp at h1
      · rw [if_neg hd] at h1
        have hids : (tmdbId == 0) = false ∧ (ty == "") = false := by
          constructor <;> (revert hv; cases tmdbId == 0 <;> cases title == "" <;>
            cases ty == "" <;> simp)
        simp only [if_neg hv, if_neg hd]
        by_cases hv2 : (tmdbId == 0 || title2 == "" || ty == "") = true
        · rw [if_pos hv2]
        · rw [if_neg hv2]
          rw [if_pos]
          simp [dupFilter]
  · unfold addTVShowToWatchlist at h2 ⊢
    by_cases hv : (tmdbIdB == 0 || titleB == "" || !("tv" == "tv")) = true
    · rw [if_pos hv] at h2
      simp at h2
    · rw [if_neg hv] at h2
      by_cases hd : db2.media.any (dupFilter userId tmdbIdB "tv") = true
      · rw [if_pos hd] at h2
        simp at h2
      · rw [if_neg hd] at h2
        simp only [if_neg hv, if_neg hd]
        by_cases hv2 : (tmdbIdB == 0 || titleB2 == "" || !(tyB2 == "tv")) = true
        · rw [if_pos hv2]
        · rw [if_neg hv2]
          rw [if_pos]
          simp [dupFilter]

/-- Witness for c3_duplicate_add_rejected: a movie add and a tv add each
succeed on an empty store and each repeat of the same triple answers 400
and leaves the store as it was. -/
theorem c3_duplicate_add_rejected_witness :
    (addToWatchlist 7 99 "A" "movie" 1 120 { media := [], episodes := [] }).1 = 201
    ∧ (addTVShowToWatchlist 7 500 "B" "tv" 2 { media := [], episodes := [] }).1 = 201
    ∧ (addToWatchlist 7 99 "A2" "movie" 3 130
          (addToWatchlist 7 99 "A" "movie" 1 120 { media := [], episodes := [] }).2
        = (400, (addToWatchlist 7 99 "A" "movie" 1 120 { media := [], episodes := [] }).2)
      ∧ addTVShowToWatchlist 7 500 "B2" "tv" 4
          (addTVShowToWatchlist 7 500 "B" "tv" 2 { media := [], episodes := [] }).2
        = (400, (addTVShowToWatchlist 7 500 "B" "tv" 2 { media := [], episodes := [] }).2)) :=
  ⟨by decide, by decide,
    c3_duplicate_add_rejected { media := [], episodes := [] } { media := [], episodes := [] }
      7 99 500 "A" "A2" "movie" 1 120 3 130 "B" "B2" "tv" 2 4 (by decide) (by decide)⟩

/-- C4: for a caller and a Media row or Episode row owned by a different
user, updateWatchStatus, removeFromWatchlist and updateEpisodeStatus
(with a request that passes the status-value precheck, which runs before
any row is consulted) answer 404 — not 403 — and leave the store
untouched, exactly the response a non-existent row gets. -/
theorem c4_ownership_isolation (db : DB) (userId mediaId epId now : Nat)
    (ws wsE : Option String) (r rE : Option Int) (reconThrows : Bool) (ep : EpisodeRow)
    (hm : ∀ x ∈ db.media, x.id = mediaId → x.addedBy ≠ userId)
    (hep : db.episodes.find? (epById epId) = some ep)
    (hepo : ep.addedBy ≠ userId)
    (hwsE : strTruthy wsE = true → validEpisodeStatuses.contains (wsE.getD "") = true) :
    updateWatchStatus userId mediaId ws r db = (404, db)
    ∧ removeFromWatchlist userId mediaId db = (404, db)
    ∧ updateEpisodeStatus userId epId now wsE rE reconThrows db = (404, db) := by
  have hnone : db.media.find? (mediaFilter userId mediaId) = none := by
    rw [List.find?_eq_none]
    intro x hx
    simp only [mediaFilter, Bool.and_eq_true, beq_iff_eq, not_and]
    intro hid
    exact fun h => hm x hx hid h
  refine ⟨?_, ?_, ?_⟩
  · unfold updateWatchStatus
    rw [hnone]
  · unfold removeFromWatchlist
    rw [hnone]
  · unfold updateEpisodeStatus
    have hpre : (strTruthy wsE && !(validEpisodeStatuses.contains (wsE.getD ""))) = false := by
      cases htr : strTruthy wsE with
      | false => rfl
      | true => rw [Bool.true_and, hwsE htr]; rfl
    have hown : (!(ep.addedBy == userId)) = true := by simp [hepo]
    rw [if_neg (by rw [hpre]; exact Bool.false_ne_true), hep]
    simp [hown]

/-- Witness for c4_ownership_isolation: user 8 attacks user 7's rows in
the example store and gets 404 with nothing changed, for all three
operations. -/
theorem c4_ownership_isolation_witness :
    (∀ x ∈ exDB.media, x.id = 10 → x.addedBy ≠ 8)
    ∧ exDB.episodes.find? (epById 1) = some exEp1
    ∧ exEp1.addedBy ≠ 8
    ∧ (updateWatchStatus 8 10 (some "completed") none exDB = (404, exDB)
      ∧ removeFromWatchlist 8 10 exDB = (404, exDB)
      ∧ updateEpisodeStatus 8 1 100 (some "watched") none false exDB = (404, exDB)) :=
  ⟨by decide, by decide, by decide,
    c4_ownership_isolation exDB 8 10 1 100 (some "completed") (some "watched") none none
      false exEp1 (by decide) (by decide) (by decide) (by decide)⟩

/-- C5: for a user with a stored OTP and expiry, verifyOTP answers 200
exactly when the submitted code equals the stored OTP and now is not
strictly past the expiry; with the correct code after expiry it answers
400 and changes nothing; a success marks the email verified and clears
the stored OTP and expiry, after which the same code is rejected with
400 and the store is not changed again. -/
theorem c5_verify_otp (db : AuthDB) (email code c : String) (e now now2 : Nat) (u : UserRow)
    (hu : db.users.find? (userByEmail email) = some u)
    (hotp : u.otp = some c)
    (hexp : u.otpExpires = some e) :
    ((verifyOTP email (some code) now db).1 = 200 ↔ (code = c ∧ now ≤ e))
    ∧ (e < now → verifyOTP email (some c) now db = (400, db))
    ∧ (now ≤ e →
        (∃ u', ((verifyOTP email (some c) now db).2).users.find? (userByEmail email) = some u'
          ∧ u'.isEmailVerified = true ∧ u'.otp = none ∧ u'.otpExpires = none)
        ∧ verifyOTP email (some c) now2 (verifyOTP email (some c) now db).2
            = (400, (verifyOTP email (some c) now db).2)) := by
  have hpu : userByEmail email u = true := List.find?_some hu
  refine ⟨?_, ?_, ?_⟩
  · unfold verifyOTP
    rw [hu]
    by_cases hc : code = c
    · subst hc
      by_cases he : e < now
      · simp [hotp, hexp, he, Nat.not_le.mpr he]
      · simp [hotp, hexp, he, Nat.le_of_not_lt he]
    · simp [hotp, hexp, hc, Ne.symm hc]
  · intro he
    unfold verifyOTP
    rw [hu]
    simp [hotp, hexp, he]
  · intro he
    have hres : (verifyOTP email (some c) now db).2
        = AuthDB.mk (updateFirst (userByEmail email) (fun _ => clearOTP u) db.users) := by
      unfold verifyOTP
      rw [hu]
      simp [hotp, hexp, Nat.not_lt.mpr he, clearOTP]
    have hfind : (AuthDB.mk (updateFirst (userByEmail email)
          (fun _ => clearOTP u) db.users)).users.find? (userByEmail email)
        = some (clearOTP u) :=
      find?_updateFirst (userByEmail email) (fun _ => clearOTP u) db.users
        (fun _ _ => hpu) u hu
    rw [hres]
    refine ⟨⟨_, hfind, rfl, rfl, rfl⟩, ?_⟩
    unfold verifyOTP
    rw [hfind]
    simp [clearOTP]

/-- Witness for c5_verify_otp: the stored OTP "123456" expiring at 1000,
checked at times 500 (before expiry) and 2000 (after). -/
theorem c5_verify_otp_witness :
    exAuthDB.users.find? (userByEmail "a@b.c") = some exUser
    ∧ exUser.otp = some "123456"
    ∧ exUser.otpExpires = some 1000
    ∧ (((verifyOTP "a@b.c" (some "123456") 500 exAuthDB).1 = 200 ↔ ("123456" = "123456" ∧ 500 ≤ 1000))
      ∧ (1000 < 500 → verifyOTP "a@b.c" (some "123456") 500 exAuthDB = (400, exAuthDB))
      ∧ (500 ≤ 1000 →
          (∃ u', ((verifyOTP "a@b.c" (some "123456") 500 exAuthDB).2).users.find?
              (userByEmail "a@b.c") = some u'
            ∧ u'.isEmailVerified = true ∧ u'.otp = none ∧ u'.otpExpires = none)
          ∧ verifyOTP "a@b.c" (some "123456") 2000 (verifyOTP "a@b.c" (some "123456") 500 exAuthDB).2
              = (400, (verifyOTP "a@b.c" (some "123456") 500 exAuthDB).2))) :=
  ⟨by decide, by decide, by decide,
    c5_verify_otp exAuthDB "a@b.c" "123456" "123456" 1000 500 2000 exUser
      (by decide) (by decide) (by decide)⟩

/-- C6: for updateWatchStatus on an owned Media row and
updateEpisodeStatus on an owned Episode row (with the status-value
precheck passing), a rating outside the interval 1..5 is rejected with
400 and nothing changes, while a rating inside 1..5 is accepted with 200
and stored on the row. -/
theorem c6_rating_bounds (db : DB) (userId mediaId epId now : Nat)
    (ws wsE : Option String) (rBad rGood : Int) (reconThrows : Bool)
    (m : MediaRow) (ep : EpisodeRow)
    (hm : db.media.find? (mediaFilter userId mediaId) = some m)
    (hep : db.episodes.find? (epById epId) = some ep)
    (hepo : ep.addedBy = userId)
    (hwsE : strTruthy wsE = true → validEpisodeStatuses.contains (wsE.getD "") = true)
    (hbad : rBad < 1 ∨ 5 < rBad)
    (hgood : 1 ≤ rGood ∧ rGood ≤ 5) :
    updateWatchStatus userId mediaId ws (some rBad) db = (400, db)
    ∧ ((updateWatchStatus userId mediaId ws (some rGood) db).1 = 200
      ∧ ∃ m', ((updateWatchStatus userId mediaId ws (some rGood) db).2).media.find?
          (mediaFilter userId mediaId) = some m' ∧ m'.rating = some rGood)
    ∧ updateEpisodeStatus userId epId now wsE (some rBad) reconThrows db = (400, db)
    ∧ ((updateEpisodeStatus userId epId now wsE (some rGood) reconThrows db).1 = 200
      ∧ ∃ e', ((updateEpisodeStatus userId epId now wsE (some rGood) reconThrows db).2).episodes.find?
          (epById epId) = some e' ∧ e'.rating = some rGood) := by
  have hpm : mediaFilter userId mediaId m = true := List.find?_some hm
  have hpe : epById epId ep = true := List.find?_some hep
  have hgb : (decide (rGood < 1) || decide (5 < rGood)) = false := by
    simp [Int.not_lt.mpr hgood.1, Int.not_lt.mpr hgood.2]
  have hpre : (strTruthy wsE && !(validEpisodeStatuses.contains (wsE.getD ""))) = false := by
    cases htr : strTruthy wsE with
    | false => rfl
    | true => rw [Bool.true_and, hwsE htr]; rfl
  have hprene : ¬ (strTruthy wsE && !(validEpisodeStatuses.contains (wsE.getD ""))) = true := by
    rw [hpre]; exact Bool.false_ne_true
  refine ⟨?_, ?_, ?_, ?_⟩
  · unfold updateWatchStatus
    rw [hm]
    rcases hbad with h | h <;> simp [h]
  · unfold updateWatchStatus
    rw [hm]
    by_cases hcond : (strTruthy ws && validMediaStatuses.contains (ws.getD "")) = true
    · simp only [hcond, if_true, hgb, Option.isSome_some, Option.getD_some, Bool.true_and,
        Bool.and_false, Bool.false_eq_true, if_false]
      exact ⟨trivial, _, find?_updateFirst _ _ _ (fun _ _ => by exact hpm) m hm, rfl⟩
    · simp only [Bool.not_eq_true] at hcond
      simp only [hcond, Bool.false_eq_true, if_false, hgb, Option.isSome_some, Option.getD_some,
        Bool.true_and, Bool.and_false]
      exact ⟨trivial, _, find?_updateFirst _ _ _ (fun _ _ => by exact hpm) m hm, rfl⟩
  · unfold updateEpisodeStatus
    rw [if_neg hprene, hep]
    rcases hbad with h | h <;> simp [hepo, h]
  · unfold updateEpisodeStatus
    rw [if_neg hprene, hep]
    by_cases htr : strTruthy wsE = true
    · simp only [htr, if_true, hepo, beq_self_eq_true, Bool.not_true, Bool.false_eq_true,
        if_false, hgb, Option.isSome_some, Option.getD_some, Bool.true_and, Bool.and_false,
        updateTVShowStatsTry_episodes]
      exact ⟨trivial, _, find?_updateFirst _ _ _ (fun _ _ => by exact hpe) ep hep, rfl⟩
    · simp only [Bool.not_eq_true] at htr
      simp only [htr, Bool.false_eq_true, if_false, hepo, beq_self_eq_true, Bool.not_true,
        hgb, Option.isSome_some, Option.getD_some, Bool.true_and, Bool.and_false,
        updateTVShowStatsTry_episodes]
      exact ⟨trivial, _, find?_updateFirst _ _ _ (fun _ _ => by exact hpe) ep hep, rfl⟩

/-- Witness for c6_rating_bounds: user 7's Media row 10 and Episode row 1
in the example store, the out-of-range rating 6 and the in-range rating
4. -/
theorem c6_rating_bounds_witness :
    exDB.media.find? (mediaFilter 7 10) = some exShow
    ∧ exDB.episodes.find? (epById 1) = some exEp1
    ∧ exEp1.addedBy = 7
    ∧ ((6 : Int) < 1 ∨ (5 : Int) < 6)
    ∧ ((1 : Int) ≤ 4 ∧ (4 : Int) ≤ 5)
    ∧ (updateWatchStatus 7 10 (some "watching") (some 6) exDB = (400, exDB)
      ∧ ((updateWatchStatus 7 10 (some "watching") (some 4) exDB).1 = 200
        ∧ ∃ m', ((updateWatchStatus 7 10 (some "watching") (some 4) exDB).2).media.find?
            (mediaFilter 7 10) = some m' ∧ m'.rating = some 4)
      ∧ updateEpisodeStatus 7 1 100 (some "watched") (some 6) false exDB = (400, exDB)
      ∧ ((updateEpisodeStatus 7 1 100 (some "watched") (some 4) false exDB).1 = 200
        ∧ ∃ e', ((updateEpisodeStatus 7 1 100 (some "watched") (some 4) false exDB).2).episodes.find?
            (epById 1) = some e' ∧ e'.rating = some 4)) :=
  ⟨by decide, by decide, by decide, by decide, by decide,
    c6_rating_bounds exDB 7 10 1 100 (some "watching") (some "watched") 6 4 false exShow exEp1
      (by decide) (by decide) (by decide) (by decide) (by decide) (by decide)⟩

/-- C8: when the outbound email throws after the triggering state change
was saved, the request answers 500 but the saved state stands: register
keeps the new user with its stored OTP and expiry, and
requestPasswordReset keeps the stored hashed reset token and its expiry;
in both cases the resulting store equals the one of a successful send. -/
theorem c8_email_failure_no_rollback (dbR dbP : AuthDB)
    (fn ln email hp otp emailP tokenHash : String) (newId now nowP : Nat) (u : UserRow)
    (hfn : fn ≠ "") (hln : ln ≠ "") (hem : email ≠ "") (hhp : hp ≠ "")
    (hnew : dbR.users.find? (userByEmail email) = none)
    (hemP : emailP ≠ "")
    (hu : dbP.users.find? (userByEmail emailP) = some u) :
    (register fn ln email hp otp newId now true dbR).1 = 500
    ∧ ((register fn ln email hp otp newId now true dbR).2).users.find? (userByEmail email)
        = some (freshUser email hp otp newId now)
    ∧ (freshUser email hp otp newId now).otp = some otp
    ∧ (freshUser email hp otp newId now).otpExpires = some (now + 10 * 60 * 1000)
    ∧ (register fn ln email hp otp newId now true dbR).2
        = (register fn ln email hp otp newId now false dbR).2
    ∧ (requestPasswordReset emailP tokenHash nowP true dbP).1 = 500
    ∧ ((requestPasswordReset emailP tokenHash nowP true dbP).2).users.find? (userByEmail emailP)
        = some (withResetToken u tokenHash nowP)
    ∧ (withResetToken u tokenHash nowP).resetPasswordToken = some tokenHash
    ∧ (withResetToken u tokenHash nowP).resetPasswordExpires = some (nowP + 3600000)
    ∧ (requestPasswordReset emailP tokenHash nowP true dbP).2
        = (requestPasswordReset emailP tokenHash nowP false dbP).2 := by
  have hpu : userByEmail emailP u = true := List.find?_some hu
  have hreg : ∀ b : Bool, register fn ln email hp otp newId now b dbR
      = (if b then 500 else 201,
         AuthDB.mk (dbR.users ++ [freshUser email hp otp newId now])) := by
    intro b
    unfold register
    rw [if_neg (by simp [hfn, hln, hem, hhp]), hnew]
    cases b <;> rfl
  have hres : ∀ b : Bool, requestPasswordReset emailP tokenHash nowP b dbP
      = (if b then 500 else 200,
         AuthDB.mk (updateFirst (userByEmail emailP)
           (fun _ => withResetToken u tokenHash nowP) dbP.users)) := by
    intro b
    unfold requestPasswordReset
    rw [if_neg (by simp [hemP]), hu]
    cases b <;> rfl
  refine ⟨?_, ?_, rfl, rfl, ?_, ?_, ?_, rfl, rfl, ?_⟩
  · rw [hreg true]
    rfl
  · rw [hreg true]
    show (dbR.users ++ [freshUser email hp otp newId now]).find? (userByEmail email)
      = some (freshUser email hp otp newId now)
    rw [find?_append_of_none _ _ _ hnew]
    simp [userByEmail, freshUser]
  · rw [hreg true, hreg false]
  · rw [hres true]
    rfl
  · rw [hres true]
    exact find?_updateFirst _ _ _ (fun _ _ => by exact hpu) u hu
  · rw [hres true, hres false]

/-- Witness for c8_email_failure_no_rollback: a registration on an empty
user store and a reset request for the stored example user, both with a
throwing mailer. -/
theorem c8_email_failure_no_rollback_witness :
    ("F" : String) ≠ "" ∧ ("L" : String) ≠ "" ∧ ("n@x.y" : String) ≠ "" ∧ ("H" : String) ≠ ""
    ∧ (AuthDB.mk []).users.find? (userByEmail "n@x.y") = none
    ∧ ("a@b.c" : String) ≠ ""
    ∧ exAuthDB.users.find? (userByEmail "a@b.c") = some exUser
    ∧ ((register "F" "L" "n@x.y" "H" "111111" 9 50 true (AuthDB.mk [])).1 = 500
      ∧ ((register "F" "L" "n@x.y" "H" "111111" 9 50 true (AuthDB.mk [])).2).users.find?
          (userByEmail "n@x.y") = some (freshUser "n@x.y" "H" "111111" 9 50)
      ∧ (freshUser "n@x.y" "H" "111111" 9 50).otp = some "111111"
      ∧ (freshUser "n@x.y" "H" "111111" 9 50).otpExpires = some (50 + 10 * 60 * 1000)
      ∧ (register "F" "L" "n@x.y" "H" "111111" 9 50 true (AuthDB.mk [])).2
          = (register "F" "L" "n@x.y" "H" "111111" 9 50 false (AuthDB.mk [])).2
      ∧ (requestPasswordReset "a@b.c" "T" 60 true exAuthDB).1 = 500
      ∧ ((requestPasswordReset "a@b.c" "T" 60 true exAuthDB).2).users.find?
          (userByEmail "a@b.c") = some (withResetToken exUser "T" 60)
      ∧ (withResetToken exUser "T" 60).resetPasswordToken = some "T"
      ∧ (withResetToken exUser "T" 60).resetPasswordExpires = some (60 + 3600000)
      ∧ (requestPasswordReset "a@b.c" "T" 60 true exAuthDB).2
          = (requestPasswordReset "a@b.c" "T" 60 false exAuthDB).2) :=
  ⟨by decide, by decide, by decide, by decide, by decide, by decide, by decide,
    c8_email_failure_no_rollback (AuthDB.mk []) exAuthDB "F" "L" "n@x.y" "H" "111111"
      "a@b.c" "T" 9 50 60 exUser (by decide) (by decide) (by decide) (by decide)
      (by decide) (by decide) (by decide)⟩

/-- C9: rating validation is atomic with respect to the whole update:
when updateWatchStatus or updateEpisodeStatus answers the 400 rating
error, nothing from the request is persisted — a valid watchStatus
supplied in the same request, and the watchedAt stamp it would imply for
an episode, are not saved, because the row is only saved after all
checks pass. -/
theorem c9_rating_error_atomic (db : DB) (userId mediaId epId now : Nat)
    (s sE : String) (rBad : Int) (reconThrows : Bool) (m : MediaRow) (ep : EpisodeRow)
    (hm : db.media.find? (mediaFilter userId mediaId) = some m)
    (hs : validMediaStatuses.contains s = true)
    (hep : db.episodes.find? (epById epId) = some ep)
    (hepo : ep.addedBy = userId)
    (hsE : validEpisodeStatuses.contains sE = true)
    (hbad : rBad < 1 ∨ 5 < rBad) :
    updateWatchStatus userId mediaId (some s) (some rBad) db = (400, db)
    ∧ updateEpisodeStatus userId epId now (some sE) (some rBad) reconThrows db = (400, db) := by
  constructor
  · unfold updateWatchStatus
    rw [hm]
    rcases hbad with h | h <;> simp [h]
  · unfold updateEpisodeStatus
    have hpre : (strTruthy (some sE)
        && !(validEpisodeStatuses.contains ((some sE).getD ""))) = false := by
      rw [show ((some sE).getD "") = sE from rfl, hsE]
      simp
    rw [if_neg (by rw [hpre]; exact Bool.false_ne_true), hep]
    rcases hbad with h | h <;> simp [hepo, h]

/-- Witness for c9_rating_error_atomic: a request carrying the valid
status "completed" (media) or "watched" (episode) together with the
out-of-range rating 0 changes nothing and answers 400. -/
theorem c9_rating_error_atomic_witness :
    exDB.media.find? (mediaFilter 7 10) = some exShow
    ∧ validMediaStatuses.contains "completed" = true
    ∧ exDB.episodes.find? (epById 1) = some exEp1
    ∧ exEp1.addedBy = 7
    ∧ validEpisodeStatuses.contains "watched" = true
    ∧ ((0 : Int) < 1 ∨ (5 : Int) < 0)
    ∧ (updateWatchStatus 7 10 (some "completed") (some 0) exDB = (400, exDB)
      ∧ updateEpisodeStatus 7 1 100 (some "watched") (some 0) false exDB = (400, exDB)) :=
  ⟨by decide, by decide, by decide, by decide, by decide, by decide,
    c9_rating_error_atomic exDB 7 10 1 100 "completed" "watched" 0 false exShow exEp1
      (by decide) (by decide) (by decide) (by decide) (by decide) (by decide)⟩

/-- C10: for every store — whether or not a parent tv Media row exists —
a valid, owner-authorized updateEpisodeStatus answers 200 and persists
the episode change regardless of the reconciliation outcome: the
reconciler catches its own errors, so a throwing reconciler leaves the
same episode rows as a successful one (the episode write is never rolled
back); and when no tv Media row of the episode's show exists for the
caller, the reconciler modifies no Media row. -/
theorem c10_episode_write_independent_of_reconciler (db : DB) (userId epId now : Nat)
    (ws : Option String) (rating : Option Int) (reconThrows : Bool) (ep : EpisodeRow)
    (hep : db.episodes.find? (epById epId) = some ep)
    (hepo : ep.addedBy = userId)
    (hws : strTruthy ws = true → validEpisodeStatuses.contains (ws.getD "") = true)
    (hr : rating.isSome = true → 1 ≤ rating.getD 0 ∧ rating.getD 0 ≤ 5) :
    (updateEpisodeStatus userId epId now ws rating reconThrows db).1 = 200
    ∧ ((updateEpisodeStatus userId epId now ws rating true db).2).episodes
        = ((updateEpisodeStatus userId epId now ws rating false db).2).episodes
    ∧ (∃ e', ((updateEpisodeStatus userId epId now ws rating reconThrows db).2).episodes.find?
          (epById epId) = some e'
        ∧ (strTruthy ws = true → e'.watchStatus = ws.getD ""))
    ∧ ((∀ x ∈ db.media, showFilter userId ep.tmdbId x = false)
        → ((updateEpisodeStatus userId epId now ws rating false db).2).media = db.media) := by
  have hpe : epById epId ep = true := List.find?_some hep
  have hpre : (strTruthy ws && !(validEpisodeStatuses.contains (ws.getD ""))) = false := by
    cases htr : strTruthy ws with
    | false => rfl
    | true => rw [Bool.true_and, hws htr]; rfl
  have hprene : ¬ (strTruthy ws && !(validEpisodeStatuses.contains (ws.getD ""))) = true := by
    rw [hpre]; exact Bool.false_ne_true
  have hrb : (rating.isSome && (decide (rating.getD 0 < 1) || decide (5 < rating.getD 0)))
      = false := by
    cases hrc : rating with
    | none => rfl
    | some r =>
      have hb := hr (by rw [hrc]; rfl)
      rw [hrc] at hb
      simp only [Option.getD_some] at hb
      simp [Int.not_lt.mpr hb.1, Int.not_lt.mpr hb.2]
  refine ⟨?_, ?_, ?_, ?_⟩
  · unfold updateEpisodeStatus
    rw [if_neg hprene, hep]
    simp [hepo, hrb]
  · exact updateEpisodeStatus_episodes_irrel userId epId now ws rating db true false
  · unfold updateEpisodeStatus
    rw [if_neg hprene, hep]
    by_cases htr : strTruthy ws = true
    · cases rating with
      | none =>
        simp only [htr, if_true, hepo, beq_self_eq_true, Bool.not_true, Bool.false_eq_true,
          if_false, hrb, updateTVShowStatsTry_episodes]
        exact ⟨_, find?_updateFirst _ _ _ (fun _ _ => by exact hpe) ep hep, fun _ => rfl⟩
      | some r =>
        simp only [htr, if_true, hepo, beq_self_eq_true, Bool.not_true, Bool.false_eq_true,
          if_false, hrb, updateTVShowStatsTry_episodes]
        exact ⟨_, find?_updateFirst _ _ _ (fun _ _ => by exact hpe) ep hep, fun _ => rfl⟩
    · cases rating with
      | none =>
        simp only [Bool.not_eq_true] at htr
        simp only [htr, Bool.false_eq_true, if_false, hepo, beq_self_eq_true, Bool.not_true,
          hrb, updateTVShowStatsTry_episodes]
        exact ⟨_, find?_updateFirst _ _ _ (fun _ _ => by exact hpe) ep hep, fun h => h.elim⟩
      | some r =>
        simp only [Bool.not_eq_true] at htr
        simp only [htr, Bool.false_eq_true, if_false, hepo, beq_self_eq_true, Bool.not_true,
          hrb, updateTVShowStatsTry_episodes]
        exact ⟨_, find?_updateFirst _ _ _ (fun _ _ => by exact hpe) ep hep, fun h => h.elim⟩
  · intro hnoshow
    unfold updateEpisodeStatus
    rw [if_neg hprene, hep]
    simp only [hepo, beq_self_eq_true, Bool.not_true, Bool.false_eq_true, if_false, hrb,
      updateTVShowStatsTry, updateTVShowStats]
    exact updateFirst_of_forall_neg _ _ _ hnoshow

/-- Witness for c10_episode_write_independent_of_reconciler, applied
twice: on the example store, whose parent tv show row exists (so a
throwing reconciler would otherwise matter), and on a store with no
Media row at all (so the no-parent implication bites); in both, marking
episode 1 watched with a throwing reconciler answers 200 and persists
the change. -/
theorem c10_episode_write_independent_of_reconciler_witness :
    (exDB.episodes.find? (epById 1) = some exEp1
      ∧ exEp1.addedBy = 7
      ∧ (strTruthy (some "watched") = true
          → validEpisodeStatuses.contains ((some "watched").getD "") = true)
      ∧ ((none : Option Int).isSome = true
          → 1 ≤ (none : Option Int).getD 0 ∧ (none : Option Int).getD 0 ≤ 5))
    ∧ ((updateEpisodeStatus 7 1 100 (some "watched") none true exDB).1 = 200
      ∧ ((updateEpisodeStatus 7 1 100 (some "watched") none true exDB).2).episodes
          = ((updateEpisodeStatus 7 1 100 (some "watched") none false exDB).2).episodes
      ∧ (∃ e', ((updateEpisodeStatus 7 1 100 (some "watched") none true
            exDB).2).episodes.find? (epById 1) = some e'
          ∧ (strTruthy (some "watched") = true → e'.watchStatus = (some "watched").getD ""))
      ∧ ((∀ x ∈ exDB.media, showFilter 7 exEp1.tmdbId x = false)
          → ((updateEpisodeStatus 7 1 100 (some "watched") none false exDB).2).media
              = exDB.media))
    ∧ ((updateEpisodeStatus 7 1 100 (some "watched") none true (DB.mk [] [exEp1, exEp2])).1 = 200
      ∧ ((updateEpisodeStatus 7 1 100 (some "watched") none true (DB.mk [] [exEp1, exEp2])).2).episodes
          = ((updateEpisodeStatus 7 1 100 (some "watched") none false (DB.mk [] [exEp1, exEp2])).2).episodes
      ∧ (∃ e', ((updateEpisodeStatus 7 1 100 (some "watched") none true
            (DB.mk [] [exEp1, exEp2])).2).episodes.find? (epById 1) = some e'
          ∧ (strTruthy (some "watched") = true → e'.watchStatus = (some "watched").getD ""))
      ∧ ((∀ x ∈ (DB.mk [] [exEp1, exEp2]).media, showFilter 7 exEp1.tmdbId x = false)
          → ((updateEpisodeStatus 7 1 100 (some "watched") none false
                (DB.mk [] [exEp1, exEp2])).2).media = (DB.mk [] [exEp1, exEp2]).media)) :=
  ⟨⟨by decide, by decide, by decide, by decide⟩,
    c10_episode_write_independent_of_reconciler exDB 7 1 100
      (some "watched") none true exEp1 (by decide) (by decide) (by decide) (by decide),
    c10_episode_write_independent_of_reconciler (DB.mk [] [exEp1, exEp2]) 7 1 100
      (some "watched") none true exEp1 (by decide) (by decide) (by decide) (by decide)⟩

end Obscura
